import Mathlib

/-!
# Verification of the incremental chart-data loader of Trading-Backtester

Shallow embedding of the incremental historical-data loading and merge
logic of the charting frontend:

* `src/trading-frontend/src/App.tsx` — the `reducer`, `fetchData` and
  `requestMore` functions of the `App` component;
* `src/unnamed/part_001` — the `CustomChart` component: the initial-data
  and incremental-data `useEffect`s, `handleVisibleLogicalRangeChange`,
  and the `addCustomPlot` helper.

Numbers: bar timestamps and calendar dates are embedded as `Int`/`Nat`
(the loader only copies, compares and subtracts them; the exact-rational
model of the one JavaScript float division is justified at
`jsEpochMillisToSeconds`).  OHLCV price fields are carried opaquely by
the loader — it never computes on them — and are embedded as `Int`.
-/

/-- One element of `responseData.data.results` as consumed by `fetchData`
(`App.tsx` lines 7–14): `t` is an epoch-millisecond timestamp, the other
fields are OHLCV values that the loader copies verbatim. -/
structure PolygonData where
  t : Nat
  o : Int
  h : Int
  l : Int
  c : Int
  v : Int
deriving DecidableEq, Repr

/-- JavaScript truncation toward zero (`ToIntegerOrInfinity`), which is what
`new Date(value)` applies to a finite numeric argument before `.getTime()`
returns it. -/
def jsTrunc (x : ℚ) : Int := if 0 ≤ x then ⌊x⌋ else ⌈x⌉

/-- `new Date(item.t / 1000).getTime()` from `fetchData` (`App.tsx` line 107):
the epoch-millisecond field divided by 1000 and truncated to an integer by the
`Date` constructor.  The JavaScript division is IEEE-754; it is modelled as the
exact rational quotient, which is faithful here because for epoch-magnitude
inputs (`t < 2^53`) the rounding error of the double division is far smaller
than the distance from the quotient to the nearest integer it does not equal,
so truncation gives the same integer. -/
def jsEpochMillisToSeconds (t : Nat) : Int := jsTrunc ((t : ℚ) / 1000)

/-- A formatted bar as built by `fetchData` (`App.tsx` lines 106–113) and as
held by the chart series.  The field `open` is a Lean keyword, hence the
quoted name. -/
structure Bar where
  time : Int
  «open» : Int
  high : Int
  low : Int
  close : Int
  volume : Int
deriving DecidableEq, Repr

/-- The body of the `parsedData.results.map(...)` callback in `fetchData`
(`App.tsx` lines 106–113).  The `time` field is
`new Date(item.t / 1000).getTime()`, i.e. the millisecond timestamp divided
by 1000 and truncated by the `Date` constructor; it is embedded as flooring
natural division, and theorem `ingestion_time_is_t_div_1000` proves this equal
to the JavaScript-semantics model `jsEpochMillisToSeconds`. -/
def formatBar (item : PolygonData) : Bar :=
  { time := ((item.t / 1000 : Nat) : Int)
    «open» := item.o
    high := item.h
    low := item.l
    close := item.c
    volume := item.v }

/-- `formattedData` from `fetchData` (`App.tsx` line 106): the response
results mapped through `formatBar`. -/
def formattedData (results : List PolygonData) : List Bar :=
  results.map formatBar

/-- The incremental prepend merge performed by the incremental-data
`useEffect` of `CustomChart` (`part_001` line 254):
`setData([...incrementalData, ...data])` — the fetched batch is concatenated
in front of the existing series, with no deduplication and no sorting. -/
def mergeIncremental (incrementalData data : List Bar) : List Bar :=
  incrementalData ++ data

/-- Strict ascending-by-`time` check on adjacent bars.  This is the data
validation that the rendering surface (the `lightweight-charts` library that
`CustomChart` drives) applies inside `series.setData`: the array must be
strictly ascending in `time`, otherwise `setData` throws. -/
def ascendingB : List Bar → Bool
  | [] => true
  | [_] => true
  | a :: b :: rest => decide (a.time < b.time) && ascendingB (b :: rest)

/-- Model of `candlestickSeries.setData(incoming)` for the incremental update
wrapped in `try`/`catch` (`part_001` lines 252–260): the rendering surface
commits `incoming` as the new series only when it is strictly ascending in
`time`; otherwise it throws, the catch leaves the series as it was, and the
boolean records whether the update succeeded. -/
def setDataChecked (cur incoming : List Bar) : List Bar × Bool :=
  if ascendingB incoming then (incoming, true) else (cur, false)

/-- One prepend-merge attempt on the chart series: concatenate the fetched
batch in front (`part_001` line 254) and hand the result to the rendering
surface; a rejected array leaves the series unchanged. -/
def chartMergeStep (series inc : List Bar) : List Bar :=
  (setDataChecked series (mergeIncremental inc series)).1

/-- The strict order on bars by `time`: the Bar-series invariant is that a
series is pairwise increasing under `barLt` (strictly increasing `time`
values, hence no duplicates). -/
def barLt (a b : Bar) : Prop := a.time < b.time

instance : IsTrans Bar barLt := ⟨fun _ _ _ h1 h2 => lt_trans h1 h2⟩

instance : DecidableRel barLt := fun a b => inferInstanceAs (Decidable (a.time < b.time))

/-- Combined state of the `App` component (the `useReducer` state of
`App.tsx` lines 16–23 and 51–55, the `error` and `isLoadingMore` `useState`s)
and of the `CustomChart` component (the `internalTicker`, chart series data,
`internalDataCount` and `updateError` states of `part_001` lines 65–76).
`currentTicker` is `none` before the first `SET_INITIAL_DATA` dispatch
(the field starts out absent). -/
structure SysState where
  currentTicker : Option String
  initialData : List Bar
  incrementalData : List Bar
  startDate : Int
  endDate : Int
  errorMsg : Option String
  isLoadingMore : Bool
  internalTicker : String
  chartSeries : List Bar
  internalDataCount : Nat
  updateError : Option String
deriving DecidableEq, Repr

/-- The ticker string the chart component sees: `App` passes
`state.currentTicker`, and the `CustomChart` prop defaults to `"UNKNOWN"`
when that is `undefined` (`part_001` line 57). -/
def chartCurrentTicker (s : SysState) : String :=
  s.currentTicker.getD "UNKNOWN"

/-- The initial-data `useEffect` of `CustomChart` (`part_001` lines 217–245):
skipped when `initialData` is empty; on a ticker change it resets the chart
(`setInternalTicker`, count 0, `setUpdateError(null)`, `setData(initialData)`,
then the new count); otherwise, when no data has been loaded yet for this
ticker, it sets the initial data.  Unlike the incremental effect, the two
`setData` calls here (lines 228 and 238) are NOT wrapped in `try`/`catch`, so
under the rendering surface's validation (`ascendingB`) a non-ascending
`initialData` makes the effect throw at the `setData` call: the series is not
replaced, only the state updates enqueued before that call apply (ticker
branch: `setInternalTicker`, `setInternalDataCount(0)`, `setUpdateError(null)`;
same-ticker branch: nothing), and the exception escapes the effect
uncaught — React surfaces it outside the state this model tracks. -/
def initialDataEffect (s : SysState) : SysState :=
  if s.initialData.isEmpty then s
  else if chartCurrentTicker s ≠ s.internalTicker then
    if ascendingB s.initialData then
      { s with internalTicker := chartCurrentTicker s
               chartSeries := s.initialData
               internalDataCount := s.initialData.length
               updateError := none }
    else
      { s with internalTicker := chartCurrentTicker s
               internalDataCount := 0
               updateError := none }
  else if s.internalDataCount = 0 then
    if ascendingB s.initialData then
      { s with chartSeries := s.initialData
               internalDataCount := s.initialData.length }
    else s
  else s

/-- The incremental-data `useEffect` of `CustomChart` (`part_001` lines
248–261): skipped when `incrementalData` is empty or the app's current ticker
differs from the chart's internal ticker; otherwise the fetched batch is
concatenated in front of the existing series and handed to `setData` inside
`try`/`catch` — on success the series becomes the concatenation and the bar
count grows, on failure the series is unchanged and the error is recorded in
`updateError` (the model keeps the fixed message prefix of the source). -/
def incrementalDataEffect (s : SysState) : SysState :=
  if s.incrementalData.isEmpty then s
  else if chartCurrentTicker s ≠ s.internalTicker then s
  else if ascendingB (mergeIncremental s.incrementalData s.chartSeries) then
    { s with chartSeries := mergeIncremental s.incrementalData s.chartSeries
             internalDataCount := s.internalDataCount + s.incrementalData.length }
  else
    { s with updateError := some "Failed to update chart data" }

/-- Dispatch of `SET_INITIAL_DATA` (`reducer`, `App.tsx` lines 59–67:
`initialData` replaced, `incrementalData` reset to `[]`, `currentTicker`,
`startDate` and `endDate` taken from the payload) followed by the chart
effects React then runs: the initial-data effect (its dependencies changed),
then the incremental-data effect (its `currentTicker` dependency changed; it
is a no-op since `incrementalData` is now empty). -/
def applySetInitialData (ticker : String) (bars : List Bar) (sd ed : Int)
    (s : SysState) : SysState :=
  incrementalDataEffect (initialDataEffect
    { s with initialData := bars
             incrementalData := []
             currentTicker := some ticker
             startDate := sd
             endDate := ed })

/-- Dispatch of `ADD_INCREMENTAL_DATA` (`reducer`, `App.tsx` lines 68–75:
`incrementalData` replaced, `startDate` taken from the payload, `endDate`
kept; the payload's ticker is ignored by this branch) followed by the
incremental-data chart effect (its `incrementalData` dependency changed).
The initial-data effect re-runs afterwards only when the merge changed
`internalDataCount`, and in that case its guards (equal tickers, non-zero
count) make it a no-op, so it is omitted. -/
def applyAddIncrementalData (bars : List Bar) (sd : Int) (s : SysState) :
    SysState :=
  incrementalDataEffect { s with incrementalData := bars, startDate := sd }

/-- Outcome of one `fetch` of
`/stock/{ticker}/{startDate}/{endDate}?timeframe={tf}` as seen by
`fetchData`: the promise rejected (network error), the response carried an
explicit `error` payload, or it carried `data.results`. -/
inductive FetchOutcome where
  | networkError
  | errorPayload (msg : String)
  | ok (results : List PolygonData)
deriving DecidableEq, Repr

/-- The `type` argument of `fetchData`, i.e. which reducer action the
response is dispatched as. -/
inductive ActionType where
  | setInitialData
  | addIncrementalData
deriving DecidableEq, Repr

/-- `fetchData` (`App.tsx` lines 96–127) processing a completed fetch:
a network error is caught and only logged (no state change, no error
surfaced); an explicit error payload calls `setError` and then throws into
`fetchData`'s own catch (no dispatch); a data response is formatted and
dispatched as the given action type, after which the chart effects run. -/
def fetchDataStep (outcome : FetchOutcome) (ty : ActionType) (ticker : String)
    (sd ed : Int) (s : SysState) : SysState :=
  match outcome with
  | .networkError => s
  | .errorPayload msg => { s with errorMsg := some msg }
  | .ok results =>
      match ty with
      | .setInitialData => applySetInitialData ticker (formattedData results) sd ed s
      | .addIncrementalData => applyAddIncrementalData (formattedData results) sd s

/-- `BAR_LOOKBACK` (`App.tsx` line 35): the lookback window in calendar
days. -/
def BAR_LOOKBACK : Int := 100

/-- The date range computed by `requestMore` (`App.tsx` lines 133–135):
`newStartDate` is the current `startDate` minus `BAR_LOOKBACK` days and
`newEndDate` is the current `startDate` minus one day.  Dates are embedded as
day numbers: the source manipulates `YYYY-MM-DD` strings parsed at UTC
midnight and subtracts exact multiples of 86 400 000 ms, which is exact
calendar-day arithmetic. -/
def requestMoreRange (startDate : Int) : Int × Int :=
  (startDate - BAR_LOOKBACK, startDate - 1)

/-- A load request as issued against the data source
(`GET /stock/{ticker}/{startDate}/{endDate}?timeframe={tf}`). -/
structure LoadRequest where
  ticker : String
  timeframe : String
  startDate : Int
  endDate : Int
deriving DecidableEq, Repr

/-- The request `requestMore` (`App.tsx` lines 129–145) issues, or `none`
when the `isLoadingMore` guard returns early. -/
def requestMoreRequest (ticker timeframe : String) (s : SysState) :
    Option LoadRequest :=
  if s.isLoadingMore then none
  else some { ticker := ticker
              timeframe := timeframe
              startDate := (requestMoreRange s.startDate).1
              endDate := (requestMoreRange s.startDate).2 }

/-- A full `requestMore` cycle (`App.tsx` lines 129–145): early return when
`isLoadingMore` is set; otherwise the fetch for the computed range completes
with `outcome` and the `finally` clause clears `isLoadingMore`.  (The catch
clause is dead code: `fetchData` never rethrows.) -/
def requestMoreStep (outcome : FetchOutcome) (ticker : String) (s : SysState) :
    SysState :=
  if s.isLoadingMore then s
  else
    { fetchDataStep outcome .addIncrementalData ticker
        (requestMoreRange s.startDate).1 (requestMoreRange s.startDate).2 s
      with isLoadingMore := false }

/-- The state of `App` and `CustomChart` on mount, before any fetch response
has been processed: no reducer `currentTicker`, empty series, chart
`internalTicker` is the empty string, `internalDataCount` zero
(`App.tsx` lines 51–55, `part_001` lines 74–76). -/
def initSysState (sd ed : Int) : SysState :=
  { currentTicker := none
    initialData := []
    incrementalData := []
    startDate := sd
    endDate := ed
    errorMsg := none
    isLoadingMore := false
    internalTicker := ""
    chartSeries := []
    internalDataCount := 0
    updateError := none }

/-- A bar with the given `time` and zero OHLCV payload, for concrete test
vectors. -/
def mkBar (t : Int) : Bar := ⟨t, 0, 0, 0, 0, 0⟩

/-- A fetch started by a scroll event: when it was issued and when it
completes (times in milliseconds). -/
structure FetchInterval where
  issuedAt : Nat
  completesAt : Nat
deriving DecidableEq, Repr

/-- State of the scroll-triggered load guard of `CustomChart`
(`part_001` lines 73 and 120–137): the `loadingRef` flag, the absolute time
at which the pending `setTimeout(..., 1000)` will clear it (meaningful only
while `loadingRef` is set), and the fetches started so far. -/
structure ChartLoadState where
  loadingRef : Bool
  resetAt : Nat
  fetches : List FetchInterval
deriving DecidableEq, Repr

/-- Guard state on mount: `loadingRef` is `false`, no fetch started. -/
def initChartLoadState : ChartLoadState := ⟨false, 0, []⟩

/-- `handleVisibleLogicalRangeChange` (`part_001` lines 120–137) at a scroll
event at time `t` whose visible range already satisfies the
`from && to && from < 30` condition; `dur` is how long the fetch the event
would start takes.  The pending `setTimeout` callback (lines 132–135) is
applied first when it has expired; then, unless `loadingRef` is set, the
handler sets `loadingRef`, starts a fetch via `requestMore`, and schedules
the reset for 1000 ms later — a fixed delay, not fetch completion. -/
def scrollStep (dur : Nat) (s : ChartLoadState) (t : Nat) : ChartLoadState :=
  let s := if s.loadingRef && decide (s.resetAt ≤ t) then
    { s with loadingRef := false } else s
  if s.loadingRef then s
  else { loadingRef := true
         resetAt := t + 1000
         fetches := s.fetches ++ [⟨t, t + dur⟩] }

/-- A sequence of qualifying scroll events (at increasing times), each
starting a fetch of duration `dur` when the guard lets it through. -/
def runScrolls (dur : Nat) (events : List Nat) : ChartLoadState :=
  events.foldl (scrollStep dur) initChartLoadState

/-- How many of the given fetches are in flight at time `t`. -/
def outstandingAt (fetches : List FetchInterval) (t : Nat) : Nat :=
  (fetches.filter (fun f => decide (f.issuedAt ≤ t) && decide (t < f.completesAt))).length

/-- One point of a custom-indicator line (`part_001` lines 16–19); the
`value` is carried opaquely by `addCustomPlot` and embedded as `Int`. -/
structure LineData where
  time : Int
  value : Int
deriving DecidableEq, Repr

/-- The `priceFormat` sub-object of `CustomPlotOptions` (`part_001`
lines 27–31). -/
structure PriceFormat where
  type : Option String
  precision : Option Int
  minMove : Option Int
deriving DecidableEq, Repr

/-- `CustomPlotOptions` (`part_001` lines 21–32); all fields optional, and
`addCustomPlot` only passes the object through whole. -/
structure CustomPlotOptions where
  color : Option String
  lineWidth : Option Int
  lineStyle : Option Int
  lineType : Option String
  priceScaleId : Option String
  priceFormat : Option PriceFormat
deriving DecidableEq, Repr

/-- A named indicator as held in the `customIndicators` list (`part_001`
lines 45–49 and 333–337). -/
structure Indicator where
  name : String
  data : List LineData
  options : Option CustomPlotOptions
deriving DecidableEq, Repr

/-- JavaScript `options || existing` on the options object: an object
argument is always truthy, so a provided argument wins and only an absent
(`undefined`) argument falls back. -/
def jsOrElse (a b : Option CustomPlotOptions) : Option CustomPlotOptions :=
  match a with
  | some x => some x
  | none => b

/-- `addCustomPlot` (`part_001` lines 332–365, identical copy in
`CustomChart.tsx` lines 227–262): copy the list; if an indicator with the
given name exists, replace the first such entry with
`{...existing, data, options: options || existing.options}`; otherwise push
`{name, data, options}` at the end.  `findIndex` + index assignment on the
copied array is embedded as replace-first-match recursion. -/
def addCustomPlot (indicators : List Indicator) (name : String)
    (data : List LineData) (options : Option CustomPlotOptions) :
    List Indicator :=
  match indicators with
  | [] => [{ name := name, data := data, options := options }]
  | ind :: rest =>
      if ind.name = name then
        { ind with data := data, options := jsOrElse options ind.options } :: rest
      else
        ind :: addCustomPlot rest name data options

/-- The spec's C1 test vector with `T = 864000`: chart showing bars at
`[T, T+86400, T+172800]` for the active ticker, with a prepend fetch
returning `[T-86400, T]` just dispatched as `ADD_INCREMENTAL_DATA`. -/
def c1State : SysState :=
  { initSysState 0 100 with
      currentTicker := some "QQQ"
      internalTicker := "QQQ"
      initialData := [mkBar 864000, mkBar 950400, mkBar 1036800]
      chartSeries := [mkBar 864000, mkBar 950400, mkBar 1036800]
      internalDataCount := 3
      incrementalData := [mkBar 777600, mkBar 864000] }

/-- Ticker-switch race trace in which the stale response arrives last:
AAPL's initial response is processed, a `FetchingMore` request for AAPL is
outstanding, the user switches to MSFT, MSFT's initial response is processed,
and then the stale AAPL response (older bars at times 1000 and 2000) arrives
and is dispatched as `ADD_INCREMENTAL_DATA`. -/
def c3TraceStaleAfter : SysState :=
  fetchDataStep (.ok [⟨1000000, 0, 0, 0, 0, 0⟩, ⟨2000000, 0, 0, 0, 0, 0⟩])
    .addIncrementalData "AAPL" (-100) (-1)
    (fetchDataStep (.ok [⟨5000000, 0, 0, 0, 0, 0⟩, ⟨6000000, 0, 0, 0, 0, 0⟩])
      .setInitialData "MSFT" 0 100
      (fetchDataStep (.ok [⟨3000000, 0, 0, 0, 0, 0⟩, ⟨4000000, 0, 0, 0, 0, 0⟩])
        .setInitialData "AAPL" 0 100
        (initSysState 0 100)))

/-- A fresh chart that receives an initial response whose bars are not in
ascending time order (`t` values 2 000 000 ms then 1 000 000 ms). -/
def c8Unsorted : SysState :=
  fetchDataStep (.ok [⟨2000000, 0, 0, 0, 0, 0⟩, ⟨1000000, 0, 0, 0, 0, 0⟩])
    .setInitialData "QQQ" 0 100 (initSysState 0 100)

/-! ## Helper lemmas -/

/-- `jsEpochMillisToSeconds` is truncating (here: flooring) division by
1000. -/
theorem jsEpochMillisToSeconds_eq_div (t : Nat) :
    jsEpochMillisToSeconds t = ((t / 1000 : Nat) : Int) := by
  have hx : (0 : ℚ) ≤ (t : ℚ) / 1000 := by positivity
  have h1 : jsEpochMillisToSeconds t = ⌊(t : ℚ) / 1000⌋ := by
    simp [jsEpochMillisToSeconds, jsTrunc, hx]
  have h2 : ((⌊(t : ℚ) / 1000⌋₊ : ℕ) : ℤ) = ⌊(t : ℚ) / 1000⌋ :=
    Int.natCast_floor_eq_floor hx
  have h3 : ⌊(t : ℚ) / 1000⌋₊ = t / 1000 := by
    have := Nat.floor_div_eq_div (α := ℚ) t 1000
    simpa using this
  rw [h1, ← h2, h3]

/-- The boolean ascending check is the `Chain'` of `barLt`. -/
theorem ascendingB_eq_true_iff (l : List Bar) :
    ascendingB l = true ↔ l.Chain' barLt := by
  induction l with
  | nil => simp [ascendingB]
  | cons a l ih =>
      cases l with
      | nil => simp [ascendingB]
      | cons b rest =>
          simp only [ascendingB, Bool.and_eq_true, decide_eq_true_eq,
            List.chain'_cons] at ih ⊢
          exact and_congr Iff.rfl ih

/-- The incremental-data effect never touches the two ticker fields. -/
theorem incrementalDataEffect_tickers (s : SysState) :
    (incrementalDataEffect s).currentTicker = s.currentTicker ∧
    (incrementalDataEffect s).internalTicker = s.internalTicker := by
  unfold incrementalDataEffect
  split_ifs <;> exact ⟨rfl, rfl⟩

/-- A `SET_INITIAL_DATA` dispatch with non-empty, strictly ascending bars
for a ticker that differs from the chart's internal ticker resets the chart
wholesale (the ascending hypothesis is what lets the uncaught
`setData(initialData)` at `part_001` line 228 succeed). -/
theorem applySetInitialData_reset (ticker : String) (bars : List Bar)
    (sd ed : Int) (s : SysState) (hne : bars ≠ [])
    (hdiff : ticker ≠ s.internalTicker) (hasc : ascendingB bars = true) :
    applySetInitialData ticker bars sd ed s =
      { s with initialData := bars
               incrementalData := []
               currentTicker := some ticker
               startDate := sd
               endDate := ed
               internalTicker := ticker
               chartSeries := bars
               internalDataCount := bars.length
               updateError := none } := by
  unfold applySetInitialData initialDataEffect incrementalDataEffect chartCurrentTicker
  simp [hne, hdiff, hasc]

/-- `options || x` absorbs a second application. -/
theorem jsOrElse_idem (a b : Option CustomPlotOptions) :
    jsOrElse a (jsOrElse a b) = jsOrElse a b := by
  cases a <;> rfl

/-- `options || options` is `options`. -/
theorem jsOrElse_self (a : Option CustomPlotOptions) : jsOrElse a a = a := by
  cases a <;> rfl

/-! ## Claim theorems -/

/-- C1 (counterexample): for the spec's test vector — initial bars at times
`[T, T+86400, T+172800]` with `T = 864000` and a prepend fetch returning
`[T-86400, T]` — the merged Series does NOT equal
`[T-86400, T, T+86400, T+172800]`: the code drops no duplicate, it hands the
plain concatenation (with `T` twice) to the rendering surface, which rejects
it, so the committed series is the unchanged original. -/
theorem prepend_merge_dedup_counterexample :
    chartMergeStep [mkBar 864000, mkBar 950400, mkBar 1036800]
        [mkBar 777600, mkBar 864000] ≠
      [mkBar 777600, mkBar 864000, mkBar 950400, mkBar 1036800] ∧
    mergeIncremental [mkBar 777600, mkBar 864000]
        [mkBar 864000, mkBar 950400, mkBar 1036800] =
      [mkBar 777600, mkBar 864000, mkBar 864000, mkBar 950400, mkBar 1036800] := by
  decide

/-- C1 (amended): a prepend merge performs no deduplication — the array
handed to the rendering surface is the concatenation of the fetched batch
and the existing Series.  For initial bars `[T, T+86400, T+172800]` and a
prepend fetch returning `[T-86400, T]`, that array is
`[T-86400, T, T, T+86400, T+172800]`; the duplicate `T` makes the rendering
surface reject it, an update error is surfaced, and the Series stays
`[T, T+86400, T+172800]`. -/
theorem prepend_merge_no_dedup :
    mergeIncremental [mkBar 777600, mkBar 864000]
        [mkBar 864000, mkBar 950400, mkBar 1036800] =
      [mkBar 777600, mkBar 864000, mkBar 864000, mkBar 950400, mkBar 1036800] ∧
    (incrementalDataEffect c1State).chartSeries =
      [mkBar 864000, mkBar 950400, mkBar 1036800] ∧
    (incrementalDataEffect c1State).updateError =
      some "Failed to update chart data" := by
  decide

/-- C2: starting from a Series that is strictly increasing in `time`, any
sequence of prepend-merge attempts leaves the Series pairwise strictly
increasing in `time` (hence duplicate-free): a batch whose concatenation
with the Series is strictly ascending is committed as such, and any other
batch is rejected by the rendering surface, leaving the Series unchanged. -/
theorem prepend_merges_preserve_invariant (init : List Bar)
    (incs : List (List Bar)) (h : ascendingB init = true) :
    (incs.foldl chartMergeStep init).Pairwise barLt := by
  have key : ∀ (l : List (List Bar)) (s : List Bar), ascendingB s = true →
      ascendingB (l.foldl chartMergeStep s) = true := by
    intro l
    induction l with
    | nil => intro s hs; simpa using hs
    | cons i rest ih =>
        intro s hs
        simp only [List.foldl_cons]
        apply ih
        cases hb : ascendingB (mergeIncremental i s) with
        | false => simpa [chartMergeStep, setDataChecked, hb] using hs
        | true => simp [chartMergeStep, setDataChecked, hb]
  exact List.chain'_iff_pairwise.mp
    ((ascendingB_eq_true_iff _).mp (key incs init h))

/-- Witness for C2 at a concrete input: initial series `[5, 9]`, one prepend
batch `[1]`. -/
theorem prepend_merges_preserve_invariant_witness :
    ascendingB [mkBar 5, mkBar 9] = true ∧
    ([[mkBar 1]].foldl chartMergeStep [mkBar 5, mkBar 9]).Pairwise barLt :=
  ⟨by decide,
   prepend_merges_preserve_invariant [mkBar 5, mkBar 9] [[mkBar 1]] (by decide)⟩

/-- C3 (counterexample): after switching from AAPL to MSFT, once MSFT's
initial response has been processed, the stale AAPL `FetchingMore` response
IS merged into MSFT's Series: the incremental path compares only the app's
current ticker with the chart's internal ticker (both already "MSFT"), never
the response's ticker, which the `ADD_INCREMENTAL_DATA` reducer branch
discards.  MSFT's series `[5000, 6000]` becomes
`[1000, 2000, 5000, 6000]` containing AAPL's stale bars. -/
theorem stale_response_merged_counterexample :
    c3TraceStaleAfter.currentTicker = some "MSFT" ∧
    c3TraceStaleAfter.internalTicker = "MSFT" ∧
    c3TraceStaleAfter.chartSeries =
      [mkBar 1000, mkBar 2000, mkBar 5000, mkBar 6000] ∧
    c3TraceStaleAfter.chartSeries ≠ [mkBar 5000, mkBar 6000] := by
  decide

/-- C3 (amended): a stale `FetchingMore` response that arrives BEFORE the new
ticker's initial response — a non-empty batch the rendering surface accepts,
i.e. strictly ascending — is never merged into the new ticker's Series: the
`SET_INITIAL_DATA` dispatch resets `incrementalData` and the ticker-change
branch of the chart replaces the dataset wholesale, so the final Series is
exactly the new ticker's fetched bars.  (A stale response arriving after the
new initial response is merged, per the counterexample: the check compares
the app's current ticker with the chart's internal ticker, not the response's
ticker.) -/
theorem stale_response_before_initial_discarded (s : SysState)
    (tOld tNew tk : String) (staleResults newResults : List PolygonData)
    (sd1 ed1 sd2 ed2 : Int)
    (hint : s.internalTicker = tOld)
    (hne : tNew ≠ tOld) (hnonempty : newResults ≠ [])
    (hasc : ascendingB (formattedData newResults) = true) :
    (fetchDataStep (.ok newResults) .setInitialData tNew sd2 ed2
      (fetchDataStep (.ok staleResults) .addIncrementalData tk sd1 ed1
        s)).chartSeries = formattedData newResults := by
  have hbars : formattedData newResults ≠ [] := by
    simpa [formattedData] using hnonempty
  have hmid := incrementalDataEffect_tickers
    { s with incrementalData := formattedData staleResults, startDate := sd1 }
  simp only [fetchDataStep, applyAddIncrementalData]
  rw [applySetInitialData_reset _ _ _ _ _ hbars (by rw [hmid.2, hint]; exact hne)
    hasc]

/-- Witness for the amended C3 at a concrete input: AAPL active with one bar,
stale AAPL bars at times 1000/2000 arrive, then MSFT's initial bars at
5000/6000 arrive; the final Series is exactly MSFT's bars. -/
theorem stale_response_before_initial_discarded_witness :
    ({ initSysState 0 100 with
        currentTicker := some "AAPL"
        internalTicker := "AAPL"
        initialData := [mkBar 3000]
        chartSeries := [mkBar 3000]
        internalDataCount := 1 } : SysState).internalTicker = "AAPL" ∧
    ("MSFT" : String) ≠ "AAPL" ∧
    ([(⟨5000000, 0, 0, 0, 0, 0⟩ : PolygonData)] ≠ ([] : List PolygonData)) ∧
    ascendingB (formattedData [⟨5000000, 0, 0, 0, 0, 0⟩]) = true ∧
    (fetchDataStep (.ok [⟨5000000, 0, 0, 0, 0, 0⟩]) .setInitialData "MSFT" 0 100
      (fetchDataStep (.ok [⟨1000000, 0, 0, 0, 0, 0⟩, ⟨2000000, 0, 0, 0, 0, 0⟩])
        .addIncrementalData "AAPL" (-100) (-1)
        { initSysState 0 100 with
            currentTicker := some "AAPL"
            internalTicker := "AAPL"
            initialData := [mkBar 3000]
            chartSeries := [mkBar 3000]
            internalDataCount := 1 })).chartSeries =
      formattedData [⟨5000000, 0, 0, 0, 0, 0⟩] :=
  ⟨by decide, by decide, by decide, by decide,
   stale_response_before_initial_discarded _ "AAPL" "MSFT" "AAPL" _ _ _ _ _ _
     (by decide) (by decide) (by decide) (by decide)⟩

/-- C4 (counterexample): with a fetch lasting 5000 ms, scroll events at
t = 0 and t = 2000 both start fetches — the 1000 ms reset timer has cleared
`loadingRef` before the first fetch completes — so at t = 2000 two fetches
are outstanding, contradicting "at most one fetch is outstanding at any
time". -/
theorem single_outstanding_fetch_counterexample :
    outstandingAt (runScrolls 5000 [0, 2000]).fetches 2000 = 2 ∧
    ¬ outstandingAt (runScrolls 5000 [0, 2000]).fetches 2000 ≤ 1 := by
  decide

/-- C4 (amended): while `loadingRef` is set and its 1000 ms reset timer has
not yet fired, a further scroll event issues no new fetch and changes
nothing.  The flag is cleared by the fixed 1000 ms `setTimeout`, not by fetch
completion, so this guarantees at most one fetch STARTED per 1000 ms window
— not at most one outstanding fetch (see the counterexample). -/
theorem scroll_guard_blocks_while_set (dur t : Nat) (s : ChartLoadState)
    (hload : s.loadingRef = true) (ht : t < s.resetAt) :
    scrollStep dur s t = s := by
  have hnot : ¬ s.resetAt ≤ t := by omega
  unfold scrollStep
  simp [hnot, hload]

/-- Witness for the amended C4 at a concrete input: with the guard set and
the timer due at 1000, a scroll at t = 500 changes nothing. -/
theorem scroll_guard_blocks_while_set_witness :
    (⟨true, 1000, [⟨0, 5000⟩]⟩ : ChartLoadState).loadingRef = true ∧
    (500 : Nat) < 1000 ∧
    scrollStep 5000 ⟨true, 1000, [⟨0, 5000⟩]⟩ 500 = ⟨true, 1000, [⟨0, 5000⟩]⟩ :=
  ⟨by decide, by decide,
   scroll_guard_blocks_while_set 5000 500 ⟨true, 1000, [⟨0, 5000⟩]⟩
     (by decide) (by decide)⟩

/-- C5 (counterexample): a fetch that fails with a network error surfaces NO
error value — `fetchData`'s catch only logs to the console — so the claim
that every failed fetch "surfaces a single error value" is false; the whole
state, error field included, is unchanged. -/
theorem failed_fetch_error_counterexample :
    fetchDataStep .networkError .addIncrementalData "QQQ" (-100) (-1)
        (initSysState 0 100) = initSysState 0 100 ∧
    (fetchDataStep .networkError .addIncrementalData "QQQ" (-100) (-1)
        (initSysState 0 100)).errorMsg = none := by
  decide

/-- C5 (amended): a failed fetch performs no merge and leaves the Series
exactly as before: a network error changes nothing at all (and surfaces no
error value, only a console log), while an explicit error payload changes
only the surfaced error message; in a full `requestMore` cycle the
`isLoadingMore` flag ends `false` either way. -/
theorem failed_fetch_no_merge (ty : ActionType) (ticker : String)
    (sd ed : Int) (msg : String) (s : SysState)
    (h : s.isLoadingMore = false) :
    fetchDataStep .networkError ty ticker sd ed s = s ∧
    fetchDataStep (.errorPayload msg) ty ticker sd ed s =
      { s with errorMsg := some msg } ∧
    (requestMoreStep .networkError ticker s).chartSeries = s.chartSeries ∧
    (requestMoreStep .networkError ticker s).incrementalData = s.incrementalData ∧
    (requestMoreStep .networkError ticker s).isLoadingMore = false ∧
    (requestMoreStep (.errorPayload msg) ticker s).chartSeries = s.chartSeries ∧
    (requestMoreStep (.errorPayload msg) ticker s).incrementalData = s.incrementalData ∧
    (requestMoreStep (.errorPayload msg) ticker s).isLoadingMore = false ∧
    (requestMoreStep (.errorPayload msg) ticker s).errorMsg = some msg := by
  refine ⟨rfl, rfl, ?_, ?_, ?_, ?_, ?_, ?_, ?_⟩ <;>
    simp [requestMoreStep, fetchDataStep, h]

/-- Witness for the amended C5 at a concrete input. -/
theorem failed_fetch_no_merge_witness :
    (initSysState 0 100).isLoadingMore = false ∧
    fetchDataStep .networkError .setInitialData "QQQ" 0 100
      (initSysState 0 100) = initSysState 0 100 :=
  ⟨by decide,
   (failed_fetch_no_merge .setInitialData "QQQ" 0 100 "err" (initSysState 0 100)
     (by decide)).1⟩

/-- C6: a `requestMore` cycle whose fetch succeeds with zero bars is treated
as success: no merge occurs (Series, bar count and incremental buffer
untouched beyond the reset to `[]`), no error is surfaced, the loading flag
ends `false`, the `startDate` marker advances to the requested range's start
`S = startDate - BAR_LOOKBACK`, and the next `requestMore` would request
`(S - BAR_LOOKBACK, S - 1)`, a range starting strictly before `S` — not the
same range again. -/
theorem empty_fetch_success (s : SysState) (ticker timeframe : String)
    (h : s.isLoadingMore = false) :
    (requestMoreStep (.ok []) ticker s).chartSeries = s.chartSeries ∧
    (requestMoreStep (.ok []) ticker s).internalDataCount = s.internalDataCount ∧
    (requestMoreStep (.ok []) ticker s).initialData = s.initialData ∧
    (requestMoreStep (.ok []) ticker s).errorMsg = s.errorMsg ∧
    (requestMoreStep (.ok []) ticker s).isLoadingMore = false ∧
    (requestMoreStep (.ok []) ticker s).startDate =
      (requestMoreRange s.startDate).1 ∧
    requestMoreRequest ticker timeframe (requestMoreStep (.ok []) ticker s) =
      some { ticker := ticker
             timeframe := timeframe
             startDate := (requestMoreRange s.startDate).1 - BAR_LOOKBACK
             endDate := (requestMoreRange s.startDate).1 - 1 } ∧
    (requestMoreRange s.startDate).1 - BAR_LOOKBACK <
      (requestMoreRange s.startDate).1 := by
  refine ⟨?_, ?_, ?_, ?_, ?_, ?_, ?_, by simp [requestMoreRange, BAR_LOOKBACK]⟩ <;>
    simp [requestMoreStep, fetchDataStep, applyAddIncrementalData,
      incrementalDataEffect, formattedData, requestMoreRequest,
      requestMoreRange, BAR_LOOKBACK, h]

/-- Witness for C6 at a concrete input. -/
theorem empty_fetch_success_witness :
    (initSysState 0 100).isLoadingMore = false ∧
    (requestMoreStep (.ok []) "QQQ" (initSysState 0 100)).startDate =
      (requestMoreRange (initSysState 0 100).startDate).1 :=
  ⟨by decide,
   (empty_fetch_success (initSysState 0 100) "QQQ" "1d" (by decide)).2.2.2.2.2.1⟩

/-- C7: every `requestMore` that proceeds to fetch issues a request whose
`startDate` is the current earliest-known date minus `BAR_LOOKBACK` = 100
calendar days and whose `endDate` (the day before the current earliest-known
date) strictly precedes it. -/
theorem requestMore_lookback_window (ticker timeframe : String) (s : SysState)
    (r : LoadRequest) (h : requestMoreRequest ticker timeframe s = some r) :
    r.startDate = s.startDate - BAR_LOOKBACK ∧ r.endDate < s.startDate := by
  unfold requestMoreRequest at h
  by_cases hl : s.isLoadingMore
  · simp [hl] at h
  · simp only [hl, Bool.false_eq_true, if_false, Option.some.injEq] at h
    subst h
    refine ⟨rfl, ?_⟩
    show (requestMoreRange s.startDate).2 < s.startDate
    have : (requestMoreRange s.startDate).2 = s.startDate - 1 := rfl
    omega

/-- Witness for C7 at a concrete input. -/
theorem requestMore_lookback_window_witness :
    requestMoreRequest "QQQ" "1d" (initSysState 365 465) =
      some { ticker := "QQQ", timeframe := "1d", startDate := 265, endDate := 364 } ∧
    (265 : Int) = 365 - BAR_LOOKBACK ∧ (364 : Int) < 365 :=
  ⟨by decide,
   (requestMore_lookback_window "QQQ" "1d" (initSysState 365 465)
     { ticker := "QQQ", timeframe := "1d", startDate := 265, endDate := 364 }
     (by decide) : _).imp id id⟩

/-- C8 (counterexample): the loader performs no sorting — an initial response
whose bars arrive out of order (t = 2 000 000 ms then 1 000 000 ms) does NOT
end with the Series replaced by those bars sorted ascending
(`[mkBar 1000, mkBar 2000]`): the uncaught `setData` at `part_001` line 228
throws on the non-ascending array, so the Series is never replaced at all —
it stays empty while the chart is left mid-reset (internal ticker updated,
count 0). -/
theorem replace_sorted_counterexample :
    c8Unsorted.chartSeries = [] ∧
    c8Unsorted.chartSeries ≠ [mkBar 1000, mkBar 2000] ∧
    c8Unsorted.internalTicker = "QQQ" ∧
    c8Unsorted.internalDataCount = 0 := by
  decide

/-- C8 (amended): a `setTicker` whose ticker differs from the chart's
current one replaces, on fetch success, the Series wholesale with the fetched
bars in response order, provided that order is strictly ascending in time (no
sorting is applied by the loader; an out-of-order response instead throws at
the uncaught `setData` and replaces nothing, per the counterexample).  The
rendering surface receives a full replacement — the new series is exactly the
fetched bars and the pending incremental buffer is cleared. -/
theorem set_ticker_full_replace (s : SysState) (ticker : String)
    (results : List PolygonData) (sd ed : Int)
    (hne : results ≠ []) (hdiff : ticker ≠ s.internalTicker)
    (hasc : ascendingB (formattedData results) = true) :
    (fetchDataStep (.ok results) .setInitialData ticker sd ed s).chartSeries =
      formattedData results ∧
    (fetchDataStep (.ok results) .setInitialData ticker sd ed s).internalTicker =
      ticker ∧
    (fetchDataStep (.ok results) .setInitialData ticker sd ed s).currentTicker =
      some ticker ∧
    (fetchDataStep (.ok results) .setInitialData ticker sd ed s).internalDataCount =
      (formattedData results).length ∧
    (fetchDataStep (.ok results) .setInitialData ticker sd ed s).incrementalData =
      [] := by
  have hbars : formattedData results ≠ [] := by
    simpa [formattedData] using hne
  simp only [fetchDataStep]
  rw [applySetInitialData_reset _ _ _ _ _ hbars hdiff hasc]
  exact ⟨rfl, rfl, rfl, rfl, rfl⟩

/-- Witness for the amended C8 at a concrete input. -/
theorem set_ticker_full_replace_witness :
    ([(⟨5000000, 0, 0, 0, 0, 0⟩ : PolygonData)] ≠ ([] : List PolygonData)) ∧
    ("MSFT" : String) ≠ (initSysState 0 100).internalTicker ∧
    ascendingB (formattedData [⟨5000000, 0, 0, 0, 0, 0⟩]) = true ∧
    (fetchDataStep (.ok [⟨5000000, 0, 0, 0, 0, 0⟩]) .setInitialData "MSFT" 0 100
      (initSysState 0 100)).chartSeries = formattedData [⟨5000000, 0, 0, 0, 0, 0⟩] :=
  ⟨by decide, by decide, by decide,
   (set_ticker_full_replace (initSysState 0 100) "MSFT"
     [⟨5000000, 0, 0, 0, 0, 0⟩] 0 100 (by decide) (by decide) (by decide)).1⟩

/-- C9: for every ingested bar, the stored `time` is the response's
epoch-millisecond field `t` divided by 1000 and truncated to an integer:
the JavaScript `new Date(t / 1000).getTime()` (modelled exactly by
`jsEpochMillisToSeconds`) equals flooring division `t / 1000`, which is what
`formatBar` stores. -/
theorem ingestion_time_is_t_div_1000 (item : PolygonData) :
    (formatBar item).time = jsEpochMillisToSeconds item.t ∧
    (formatBar item).time = ((item.t / 1000 : Nat) : Int) :=
  ⟨(jsEpochMillisToSeconds_eq_div item.t).symm, rfl⟩

/-- C10: `addCustomPlot` is pure and idempotent: it is a function of its
arguments returning a new list (the input list is untouched by
construction in this embedding); if the input contains at most one
indicator with the given name, so does the result; and applying it twice
with the same name, data and options equals applying it once. -/
theorem addCustomPlot_pure_idempotent (indicators : List Indicator)
    (name : String) (data : List LineData) (options : Option CustomPlotOptions)
    (h : indicators.countP (fun i => decide (i.name = name)) ≤ 1) :
    (addCustomPlot indicators name data options).countP
        (fun i => decide (i.name = name)) ≤ 1 ∧
    addCustomPlot (addCustomPlot indicators name data options) name data
        options = addCustomPlot indicators name data options := by
  induction indicators with
  | nil =>
      refine ⟨by simp [addCustomPlot], ?_⟩
      simp [addCustomPlot, jsOrElse_self]
  | cons ind rest ih =>
      by_cases hn : ind.name = name
      · refine ⟨?_, ?_⟩
        · simpa [addCustomPlot, hn, List.countP_cons] using h
        · simp [addCustomPlot, hn, jsOrElse_idem]
      · have h' : rest.countP (fun i => decide (i.name = name)) ≤ 1 := by
          simpa [List.countP_cons, hn] using h
        refine ⟨?_, ?_⟩
        · simpa [addCustomPlot, hn, List.countP_cons] using (ih h').1
        · simp [addCustomPlot, hn, (ih h').2]

/-- Witness for C10 at a concrete input. -/
theorem addCustomPlot_pure_idempotent_witness :
    ([] : List Indicator).countP (fun i => decide (i.name = "sma")) ≤ 1 ∧
    addCustomPlot (addCustomPlot [] "sma" [⟨1, 2⟩] none) "sma" [⟨1, 2⟩] none =
      addCustomPlot [] "sma" [⟨1, 2⟩] none :=
  ⟨by decide, (addCustomPlot_pure_idempotent [] "sma" [⟨1, 2⟩] none (by decide)).2⟩
